import Mathlib

/-!
Shallow embedding of `src/Server/server.py` (PingApp REST server).

The Python server stores JSON telemetry in SQLite.  The embedding models:
  * JSON scalar values (`JVal`) and JSON objects as association lists (`JObj`),
    with lookups mirroring Python `dict.get` / `dict[...]`;
  * the four SQLite tables as lists of rows inside `DBState`;
  * each `PingDataServer` store method as a state-passing function.  SQLite
    exceptions (connection failure, constraint violation, commit failure) are
    modelled by explicit fault flags passed to each call; a Python `except`
    block that logs and returns `None`/`False` becomes the failure result.
    Because every method opens one connection, executes its statements, and
    calls `commit()` exactly once at the end, an exception at any step leaves
    the database unchanged (the implicit transaction is rolled back when the
    connection is closed without commit); the embedding therefore returns the
    original state on every failure path.
  * the three POST handlers of `PingRestApiHandler` as functions from the
    parsed body (`Except String JObj`, the error carrying the `ValueError`
    message raised by `parse_json_body`) to an `HttpResponse` and next state.

Time (`datetime.now().isoformat()`) is passed in as an opaque `now : String`.
-/

namespace PingApp

/-- JSON scalar value, as produced by `json.loads` for the fields the server
reads.  (The one list-valued key the server reads, `ping_results`, and the
one dict-valued key, `settings`, are modelled as separate components of
`SessionData` below.) -/
inductive JVal where
  | null
  | str (s : String)
  | int (n : Int)
  | bool (b : Bool)
  deriving DecidableEq, Repr

/-- A JSON object / Python dict: association list from keys to values. -/
abbrev JObj := List (String × JVal)

/-- Python `d[k]` as a partial lookup: `none` models a `KeyError`. -/
def dictGet? (o : JObj) (k : String) : Option JVal :=
  (o.find? (fun kv => kv.1 == k)).map (fun kv => kv.2)

/-- Python `d.get(k, default)`. -/
def dictGetD (o : JObj) (k : String) (d : JVal) : JVal :=
  (dictGet? o k).getD d

/-- Python `k in d`. -/
def containsKey (o : JObj) (k : String) : Bool :=
  o.any (fun kv => kv.1 == k)

/-- Python truthiness of a JSON scalar (used by
`if heartbeat_data.get("client_id"):`). -/
def pyTruthy : JVal → Bool
  | .null => false
  | .str s => !(s == "")
  | .int n => !(n == 0)
  | .bool b => b

/-- Python `str()` / f-string rendering of a JSON scalar. -/
def pyStrOf : JVal → String
  | .null => "None"
  | .str s => s
  | .int n => toString n
  | .bool b => if b then "True" else "False"

/-- Python str.replace (space to underscore) requires a `str` receiver; on any other value
the attribute access raises (`AttributeError`), modelled as `none`. -/
def asStr : JVal → Option String
  | .str s => some s
  | _ => none

/-- Python str.replace applied at server.py line 134: every space becomes an underscore. -/
def sanitizeModel (s : String) : String :=
  ⟨s.data.map (fun c => if c = ' ' then '_' else c)⟩

/-- Python `json.dumps` on a scalar. -/
def dumpVal : JVal → String
  | .null => "null"
  | .str s => "\"" ++ s ++ "\""
  | .int n => toString n
  | .bool b => if b then "true" else "false"

/-- Python `json.dumps` on a flat dict of scalars (the `settings` payload). -/
def dumpObj (o : JObj) : String :=
  "\x7b" ++ String.intercalate ", "
    (o.map (fun kv => "\"" ++ kv.1 ++ "\": " ++ dumpVal kv.2)) ++ "\x7d"

/-- Row of the `clients` table.  `client_id` is the computed TEXT primary key;
`total_sessions` is `INTEGER DEFAULT 0` and only ever incremented. -/
structure Client where
  client_id : String
  device_id : JVal
  device_model : JVal
  android_version : JVal
  app_version : JVal
  first_seen : String
  last_seen : String
  last_location : JVal
  total_sessions : Nat
  deriving DecidableEq, Repr

/-- Row of the `heartbeats` table (append-only log). -/
structure HeartbeatRow where
  client_id : JVal
  device_id : JVal
  app_status : JVal
  location : JVal
  timestamp : String
  deriving DecidableEq, Repr

/-- Row of the `ping_sessions` table. -/
structure SessionRow where
  session_id : JVal
  client_id : JVal
  host : JVal
  protocol : JVal
  start_time : JVal
  end_time : JVal
  duration_seconds : JVal
  packets_sent : JVal
  packets_received : JVal
  packet_loss_percent : JVal
  avg_rtt_ms : JVal
  min_rtt_ms : JVal
  max_rtt_ms : JVal
  total_bytes : JVal
  avg_bandwidth_bps : JVal
  start_location : JVal
  end_location : JVal
  settings_json : String
  deriving DecidableEq, Repr

/-- Row of the `ping_results` table (the AUTOINCREMENT id is the position). -/
structure PingResultRow where
  session_id : JVal
  timestamp : JVal
  sequence_number : JVal
  success : JVal
  rtt_ms : JVal
  location : JVal
  error_message : JVal
  deriving DecidableEq, Repr

/-- The SQLite database contents. -/
structure DBState where
  clients : List Client
  ping_sessions : List SessionRow
  ping_results : List PingResultRow
  heartbeats : List HeartbeatRow
  deriving DecidableEq, Repr

/-- A fresh database, as produced by `init_database`. -/
def emptyDB : DBState := ⟨[], [], [], []⟩

/-- SQL `SELECT ... FROM clients WHERE client_id = ?` with `fetchone()`. -/
def findClient (db : DBState) (cid : String) : Option Client :=
  db.clients.find? (fun c => c.client_id == cid)

/-- The `client_id` computed by the f-string at server.py line 134: the
device id, an underscore, then the device model with spaces replaced by
underscores. -/
def computeClientId (did : JVal) (model : String) : String :=
  pyStrOf did ++ "_" ++ sanitizeModel model

/-- The UPDATE of an existing client row at server.py lines 145-156: sets
`last_seen`, the three mutable device fields and `last_location`, leaving
`client_id`, `device_id`, `first_seen` and `total_sessions` untouched. -/
def updateClientRow (now : String) (device_info : JObj) (c : Client) : Client :=
  { c with last_seen := now,
           device_model := dictGetD device_info "device_model" (JVal.str ""),
           android_version := dictGetD device_info "android_version" (JVal.str ""),
           app_version := dictGetD device_info "app_version" (JVal.str ""),
           last_location := dictGetD device_info "location" (JVal.str "N/A") }

/-- The INSERT of a new client row at server.py lines 160-167:
`first_seen = last_seen = now` and `total_sessions = 0`. -/
def newClientRow (now : String) (device_info : JObj) (did : JVal)
    (client_id : String) : Client :=
  { client_id := client_id,
    device_id := did,
    device_model := dictGetD device_info "device_model" (JVal.str ""),
    android_version := dictGetD device_info "android_version" (JVal.str ""),
    app_version := dictGetD device_info "app_version" (JVal.str ""),
    first_seen := now,
    last_seen := now,
    last_location := dictGetD device_info "location" (JVal.str "N/A"),
    total_sessions := 0 }

/-- PingDataServer.register_or_update_client (server.py lines 127-175).
`fault = true` models a SQLite exception during the call (connect, execute or
commit); together with `KeyError` on a missing `device_id` and
`AttributeError` on a non-string `device_model`, every exception is caught
and the method returns `None` with the database unchanged. -/
def register_or_update_client (fault : Bool) (now : String) (db : DBState)
    (device_info : JObj) : Option String × DBState :=
  if fault then (none, db) else
  match dictGet? device_info "device_id" with
  | none => (none, db)
  | some did =>
    match asStr (dictGetD device_info "device_model" (JVal.str "")) with
    | none => (none, db)
    | some model =>
      let client_id := computeClientId did model
      match findClient db client_id with
      | some _ =>
        (some client_id,
         { db with clients := db.clients.map (fun c =>
             if c.client_id == client_id then updateClientRow now device_info c else c) })
      | none =>
        (some client_id,
         { db with clients := db.clients ++ [newClientRow now device_info did client_id] })

/-- PingDataServer.store_heartbeat (server.py lines 177-213).
`fault = true` models a SQLite exception during the call; the method then
returns `False` with nothing committed.  Otherwise it appends a heartbeat row
and, when `heartbeat_data.get("client_id")` is truthy, updates the matching
client rows' `last_seen`/`last_location`. -/
def store_heartbeat (fault : Bool) (now : String) (db : DBState)
    (heartbeat_data : JObj) : Bool × DBState :=
  if fault then (false, db) else
  let row : HeartbeatRow :=
    { client_id := dictGetD heartbeat_data "client_id" (JVal.str ""),
      device_id := dictGetD heartbeat_data "device_id" (JVal.str ""),
      app_status := dictGetD heartbeat_data "app_status" (JVal.str "unknown"),
      location := dictGetD heartbeat_data "location" (JVal.str "N/A"),
      timestamp := now }
  let db1 := { db with heartbeats := db.heartbeats ++ [row] }
  if pyTruthy (dictGetD heartbeat_data "client_id" JVal.null) then
    (true,
     { db1 with clients := db1.clients.map (fun c =>
         if JVal.str c.client_id == dictGetD heartbeat_data "client_id" JVal.null then
           { c with last_seen := now,
                    last_location := dictGetD heartbeat_data "location" (JVal.str "N/A") }
         else c) })
  else
    (true, db1)

/-- Upload payload for `store_ping_session`: the scalar fields of the JSON
body, plus the two non-scalar keys the method reads — the optional
`ping_results` list (each element a dict of scalars) and the optional
`settings` dict (serialized with `json.dumps`). -/
structure SessionData where
  fields : JObj
  ping_results : Option (List JObj)
  settings : Option JObj
  deriving DecidableEq, Repr

/-- Fault flags for one `store_ping_session` call, modelling SQLite
exceptions at each statement: connection open, the session INSERT, the
client UPDATE, the i-th ping-result INSERT (`insertResult.getD i false`),
and the final `commit()`. -/
structure SessionFaults where
  connect : Bool
  insertSession : Bool
  updateClient : Bool
  insertResult : List Bool
  commit : Bool
  deriving DecidableEq, Repr

/-- The no-fault flag set. -/
def noFaults : SessionFaults := ⟨false, false, false, [], false⟩

/-- The session row built by the INSERT at server.py lines 223-239. -/
def mkSessionRow (sd : SessionData)
    (sid cid host proto st et dur ps pr plp : JVal) : SessionRow :=
  { session_id := sid, client_id := cid, host := host, protocol := proto,
    start_time := st, end_time := et, duration_seconds := dur,
    packets_sent := ps, packets_received := pr, packet_loss_percent := plp,
    avg_rtt_ms := dictGetD sd.fields "avg_rtt_ms" (JVal.int 0),
    min_rtt_ms := dictGetD sd.fields "min_rtt_ms" (JVal.int 0),
    max_rtt_ms := dictGetD sd.fields "max_rtt_ms" (JVal.int 0),
    total_bytes := dictGetD sd.fields "total_bytes" (JVal.int 0),
    avg_bandwidth_bps := dictGetD sd.fields "avg_bandwidth_bps" (JVal.int 0),
    start_location := dictGetD sd.fields "start_location" (JVal.str "N/A"),
    end_location := dictGetD sd.fields "end_location" (JVal.str "N/A"),
    settings_json := dumpObj (sd.settings.getD []) }

/-- A ping-result row built from one element of `ping_results`
(server.py lines 252-261). -/
def mkResultRow (sid : JVal) (r : JObj) : PingResultRow :=
  { session_id := sid,
    timestamp := dictGetD r "timestamp" (JVal.str ""),
    sequence_number := dictGetD r "sequence" (JVal.int 0),
    success := dictGetD r "success" (JVal.bool false),
    rtt_ms := dictGetD r "rtt_ms" (JVal.int 0),
    location := dictGetD r "location" (JVal.str "N/A"),
    error_message := dictGetD r "error_message" (JVal.str "") }

/-- The database state committed by a fully successful `store_ping_session`
call: session row appended, matching clients' `total_sessions` incremented
and `last_location` set to the (defaulted) `end_location`, and one result
row appended per `ping_results` element. -/
def commitSession (sd : SessionData) (db : DBState)
    (sid cid host proto st et dur ps pr plp : JVal) : DBState :=
  { db with
    ping_sessions := db.ping_sessions ++ [mkSessionRow sd sid cid host proto st et dur ps pr plp],
    clients := db.clients.map (fun c =>
      if JVal.str c.client_id == cid then
        { c with total_sessions := c.total_sessions + 1,
                 last_location := dictGetD sd.fields "end_location" (JVal.str "N/A") }
      else c),
    ping_results := db.ping_results ++ (sd.ping_results.getD []).map (mkResultRow sid) }

/-- PingDataServer.store_ping_session (server.py lines 215-269).
Statements execute in source order on one uncommitted connection; the first
exception (SQLite fault flag, `KeyError` on a missing direct subscript, or
the TEXT PRIMARY KEY conflict on a duplicate non-NULL `session_id` —
SQLite permits NULL in a non-INTEGER primary key column) aborts the call:
it returns `False` and, since `commit()` is never reached, the database is
unchanged.  Only a fault-free run commits and returns `True`. -/
def store_ping_session (f : SessionFaults) (db : DBState)
    (sd : SessionData) : Bool × DBState :=
  if f.connect then (false, db) else
  match dictGet? sd.fields "session_id" with
  | none => (false, db)
  | some sid =>
  match dictGet? sd.fields "client_id" with
  | none => (false, db)
  | some cid =>
  match dictGet? sd.fields "host" with
  | none => (false, db)
  | some host =>
  match dictGet? sd.fields "protocol" with
  | none => (false, db)
  | some proto =>
  match dictGet? sd.fields "start_time" with
  | none => (false, db)
  | some st =>
  match dictGet? sd.fields "end_time" with
  | none => (false, db)
  | some et =>
  match dictGet? sd.fields "duration_seconds" with
  | none => (false, db)
  | some dur =>
  match dictGet? sd.fields "packets_sent" with
  | none => (false, db)
  | some ps =>
  match dictGet? sd.fields "packets_received" with
  | none => (false, db)
  | some pr =>
  match dictGet? sd.fields "packet_loss_percent" with
  | none => (false, db)
  | some plp =>
    if f.insertSession then (false, db)
    else if !(sid == JVal.null) && db.ping_sessions.any (fun r => r.session_id == sid) then
      (false, db)
    else if f.updateClient then (false, db)
    else if (f.insertResult.take (sd.ping_results.getD []).length).any (fun b => b) then
      (false, db)
    else if f.commit then (false, db)
    else (true, commitSession sd db sid cid host proto st et dur ps pr plp)

/-- One row of `get_client_stats`: all `clients` columns plus the LEFT-JOIN
aggregate `COUNT(s.session_id) as actual_sessions` (which counts the
sessions whose `client_id` equals the client's key and whose `session_id`
is non-NULL). -/
structure ClientStats where
  client : Client
  actual_sessions : Nat
  deriving DecidableEq, Repr

/-- PingDataServer.get_client_stats for a specific client id
(server.py lines 271-305, first branch). -/
def get_client_stats (db : DBState) (client_id : String) : Option ClientStats :=
  (findClient db client_id).map (fun c =>
    { client := c,
      actual_sessions := (db.ping_sessions.filter (fun s =>
        s.client_id == JVal.str c.client_id && !(s.session_id == JVal.null))).length })

/-- An HTTP response: status code plus the JSON body as an object. -/
structure HttpResponse where
  status : Nat
  body : JObj
  deriving DecidableEq, Repr

/-- PingRestApiHandler.send_json_error (server.py lines 403-411). -/
def jsonError (status_code : Nat) (message : String) (now : String) : HttpResponse :=
  { status := status_code,
    body := [("error", JVal.bool true),
             ("status_code", JVal.int status_code),
             ("message", JVal.str message),
             ("timestamp", JVal.str now)] }

/-- PingRestApiHandler.handle_connect (server.py lines 481-510).  A body
parse failure raises `ValueError`, caught as HTTP 400 with the message;
a `None` from the store becomes HTTP 500 "Failed to register client". -/
def handle_connect (fault : Bool) (now : String) (db : DBState)
    (body : Except String JObj) : HttpResponse × DBState :=
  match body with
  | .error msg => (jsonError 400 msg now, db)
  | .ok request_data =>
    match register_or_update_client fault now db request_data with
    | (some client_id, db') =>
      ({ status := 200,
         body := [("status", JVal.str "connected"),
                  ("message", JVal.str "Device registered successfully with location"),
                  ("client_id", JVal.str client_id),
                  ("location_recorded", dictGetD request_data "location" (JVal.str "N/A")),
                  ("timestamp", JVal.str now),
                  ("server_time", JVal.str now)] }, db')
    | (none, db') => (jsonError 500 "Failed to register client" now, db')

/-- PingRestApiHandler.handle_heartbeat (server.py lines 512-536).  The
only `except` clause is the catch-all (HTTP 500 "Internal server error",
reached when `parse_json_body` raises); the boolean returned by
`db.store_heartbeat(request_data)` at line 520 is discarded, so a store
failure still produces the HTTP 200 acknowledgement. -/
def handle_heartbeat (fault : Bool) (now : String) (db : DBState)
    (body : Except String JObj) : HttpResponse × DBState :=
  match body with
  | .error _ => (jsonError 500 "Internal server error" now, db)
  | .ok request_data =>
    let stored := store_heartbeat fault now db request_data
    ({ status := 200,
       body := [("heartbeat", JVal.str "acknowledged"),
                ("server_status", JVal.str "online"),
                ("location_recorded", dictGetD request_data "location" (JVal.str "N/A")),
                ("timestamp", JVal.str now),
                ("next_heartbeat_in_seconds", JVal.int 3600)] }, stored.2)

/-- The required-field list of handle_upload_session (server.py lines 544-545),
in source order. -/
def required_fields : List String :=
  ["session_id", "client_id", "host", "protocol",
   "start_time", "end_time", "packets_sent", "packets_received"]

/-- The validation loop of handle_upload_session (server.py lines 547-550):
the first field, in listed order, with `field not in session_data`. -/
def firstMissing (o : JObj) : Option String :=
  required_fields.find? (fun field => !(containsKey o field))

/-- PingRestApiHandler.handle_upload_session (server.py lines 538-577). -/
def handle_upload_session (f : SessionFaults) (now : String) (db : DBState)
    (body : Except String SessionData) : HttpResponse × DBState :=
  match body with
  | .error msg => (jsonError 400 msg now, db)
  | .ok session_data =>
    match firstMissing session_data.fields with
    | some field => (jsonError 400 ("Missing required field: " ++ field) now, db)
    | none =>
      match store_ping_session f db session_data with
      | (true, db') =>
        ({ status := 200,
           body := [("status", JVal.str "success"),
                    ("message", JVal.str "Session data uploaded successfully with location"),
                    ("session_id", dictGetD session_data.fields "session_id" JVal.null),
                    ("start_location", dictGetD session_data.fields "start_location" (JVal.str "N/A")),
                    ("end_location", dictGetD session_data.fields "end_location" (JVal.str "N/A")),
                    ("timestamp", JVal.str now)] }, db')
      | (false, db') => (jsonError 500 "Failed to store session data" now, db')

/-- A sequence of `store_ping_session` calls, applied left to right; the
boolean is `true` when every call succeeded. -/
def storeAll (db : DBState) : List (SessionFaults × SessionData) → Bool × DBState
  | [] => (true, db)
  | (f, sd) :: rest =>
    let first := store_ping_session f db sd
    let others := storeAll first.2 rest
    (first.1 && others.1, others.2)

/-- Concrete existing client used by witnesses. -/
def wClient7 : Client :=
  { client_id := "abc_Pixel_7", device_id := JVal.str "abc",
    device_model := JVal.str "Pixel 7", android_version := JVal.str "13",
    app_version := JVal.str "1.0", first_seen := "t1", last_seen := "t1",
    last_location := JVal.str "Paris", total_sessions := 4 }

/-- Concrete database holding `wClient7`. -/
def wDB7 : DBState := ⟨[wClient7], [], [], []⟩

/-- Concrete client with zero stored sessions and its database. -/
def wClient0 : Client :=
  { client_id := "c1", device_id := JVal.str "d1", device_model := JVal.str "m",
    android_version := JVal.str "", app_version := JVal.str "", first_seen := "t0",
    last_seen := "t0", last_location := JVal.str "N/A", total_sessions := 0 }

/-- Concrete database holding `wClient0`. -/
def wDB0 : DBState := ⟨[wClient0], [], [], []⟩

/-- Concrete upload payload referencing client "c1". -/
def wSession (sid : String) : SessionData :=
  ⟨[("session_id", JVal.str sid), ("client_id", JVal.str "c1"), ("host", JVal.str "8.8.8.8"),
    ("protocol", JVal.str "icmp"), ("start_time", JVal.str "a"), ("end_time", JVal.str "b"),
    ("packets_sent", JVal.int 10), ("packets_received", JVal.int 9),
    ("duration_seconds", JVal.int 30), ("packet_loss_percent", JVal.int 10)], none, none⟩

/-- Concrete upload body whose required fields are present but several carry
JSON null (even the session id). -/
def wNullSession : SessionData :=
  ⟨[("session_id", JVal.null), ("client_id", JVal.null), ("host", JVal.str "h"),
    ("protocol", JVal.str "udp"), ("start_time", JVal.null), ("end_time", JVal.null),
    ("packets_sent", JVal.null), ("packets_received", JVal.null),
    ("duration_seconds", JVal.int 1), ("packet_loss_percent", JVal.int 0)], none, none⟩

/-- List.find? commutes with mapping a function that preserves the predicate. -/
theorem find?_map_pres {α : Type} (p : α → Bool) (h : α → α)
    (hp : ∀ a, p (h a) = p a) :
    ∀ l : List α, (l.map h).find? p = (l.find? p).map h := by
  intro l
  induction l with
  | nil => rfl
  | cons a t ih =>
    by_cases hq : p a = true
    · rw [List.map_cons, List.find?_cons_of_pos _ (by rw [hp]; exact hq),
          List.find?_cons_of_pos _ hq, Option.map_some']
    · rw [List.map_cons, List.find?_cons_of_neg _ (by rw [hp]; exact hq),
          List.find?_cons_of_neg _ hq, ih]

/-- Any key that can be read with `dictGet?` is reported present by `in`. -/
theorem containsKey_of_dictGet? (o : JObj) (k : String) (v : JVal)
    (h : dictGet? o k = some v) : containsKey o k = true := by
  unfold dictGet? at h
  cases hf : o.find? (fun kv => kv.1 == k) with
  | none => rw [hf] at h; simp at h
  | some kv =>
    have hp := @List.find?_some _ (fun kv => kv.1 == k) kv o hf
    exact List.any_eq_true.2 ⟨kv, List.mem_of_find?_eq_some hf, hp⟩

/-- Successful upsert on an existing row takes the UPDATE branch. -/
theorem register_update_eq (now : String) (db : DBState) (di : JObj)
    (d : JVal) (m : String) (c : Client)
    (hd : dictGet? di "device_id" = some d)
    (hm : asStr (dictGetD di "device_model" (JVal.str "")) = some m)
    (hc : findClient db (computeClientId d m) = some c) :
    register_or_update_client false now db di
      = (some (computeClientId d m),
         { db with clients := db.clients.map (fun cc =>
             if cc.client_id == computeClientId d m then updateClientRow now di cc else cc) }) := by
  simp [register_or_update_client, hd, hm, hc]

/-- Successful upsert with no existing row takes the INSERT branch. -/
theorem register_insert_eq (now : String) (db : DBState) (di : JObj)
    (d : JVal) (m : String)
    (hd : dictGet? di "device_id" = some d)
    (hm : asStr (dictGetD di "device_model" (JVal.str "")) = some m)
    (hc : findClient db (computeClientId d m) = none) :
    register_or_update_client false now db di
      = (some (computeClientId d m),
         { db with clients := db.clients ++ [newClientRow now di d (computeClientId d m)] }) := by
  simp [register_or_update_client, hd, hm, hc]

/-- Updating rows in place with a client_id-preserving function commutes
with `findClient`. -/
theorem findClient_map_upd (l : List Client) (cid : String) (g : Client → Client)
    (hg : ∀ c, (g c).client_id = c.client_id) (q : Client → Bool)
    (hq : q = fun c => c.client_id == cid) :
    (l.map (fun c => if c.client_id == cid then g c else c)).find? q
      = (l.find? q).map (fun c => if c.client_id == cid then g c else c) := by
  subst hq
  exact find?_map_pres _ _ (fun a => by by_cases hz : a.client_id == cid <;> simp [hz, hg]) l

/-- After the UPDATE branch, the client row found under the key is the
updated original row. -/
theorem findClient_update_found (now : String) (di : JObj) (l : List Client)
    (cid : String) (c : Client)
    (hfind : l.find? (fun c => c.client_id == cid) = some c) :
    (l.map (fun cc => if cc.client_id == cid then updateClientRow now di cc else cc)).find?
        (fun cc => cc.client_id == cid) = some (updateClientRow now di c) := by
  rw [findClient_map_upd l cid (updateClientRow now di) (fun _ => rfl) _ rfl, hfind,
      Option.map_some']
  have := List.find?_some hfind
  simp [this]


/-- After the INSERT branch the new row is found under its key. -/
theorem findClient_insert_found (now : String) (di : JObj) (l : List Client)
    (d : JVal) (cid : String)
    (hfind : l.find? (fun c => c.client_id == cid) = none) :
    (l ++ [newClientRow now di d cid]).find? (fun c => c.client_id == cid)
      = some (newClientRow now di d cid) := by
  rw [List.find?_append, hfind, Option.none_or]
  simp [newClientRow, List.find?]

/-- A successful upsert leaves a row stored under the computed client id. -/
theorem register_success_found (now : String) (db : DBState) (di : JObj)
    (d : JVal) (m : String)
    (hd : dictGet? di "device_id" = some d)
    (hm : asStr (dictGetD di "device_model" (JVal.str "")) = some m) :
    ∃ db' c', register_or_update_client false now db di = (some (computeClientId d m), db') ∧
      findClient db' (computeClientId d m) = some c' := by
  cases hc : findClient db (computeClientId d m) with
  | some c =>
    refine ⟨_, updateClientRow now di c, register_update_eq now db di d m c hd hm hc, ?_⟩
    exact findClient_update_found now di db.clients _ c hc
  | none =>
    refine ⟨_, newClientRow now di d (computeClientId d m),
      register_insert_eq now db di d m hd hm hc, ?_⟩
    exact findClient_insert_found now di db.clients d _ hc

/-- C4: calling connect twice with an identical body (same `device_id` and
`device_model`) returns the same computed client id from both calls, and the
second call leaves the client's `total_sessions` exactly as the first call
left it — connect alone never modifies the counter. -/
theorem C4_connect_idempotent (now1 now2 : String) (db : DBState) (di : JObj)
    (d : JVal) (m : String)
    (hd : dictGet? di "device_id" = some d)
    (hm : asStr (dictGetD di "device_model" (JVal.str "")) = some m) :
    ∃ db1 db2,
      register_or_update_client false now1 db di = (some (computeClientId d m), db1) ∧
      register_or_update_client false now2 db1 di = (some (computeClientId d m), db2) ∧
      (findClient db2 (computeClientId d m)).map Client.total_sessions
        = (findClient db1 (computeClientId d m)).map Client.total_sessions := by
  obtain ⟨db1, c1, h1, hf1⟩ := register_success_found now1 db di d m hd hm
  have h2 := register_update_eq now2 db1 di d m c1 hd hm hf1
  refine ⟨db1, _, h1, h2, ?_⟩
  have hup := findClient_update_found now2 di db1.clients (computeClientId d m) c1 hf1
  simp only [findClient] at hf1 ⊢
  rw [hup, hf1]
  rfl

/-- C4 witness: the idempotent upsert at a concrete device payload. -/
theorem C4_connect_idempotent_witness :
    ∃ db1 db2,
      register_or_update_client false "t1" emptyDB
          [("device_id", JVal.str "abc"), ("device_model", JVal.str "Pixel 7")]
        = (some "abc_Pixel_7", db1) ∧
      register_or_update_client false "t2" db1
          [("device_id", JVal.str "abc"), ("device_model", JVal.str "Pixel 7")]
        = (some "abc_Pixel_7", db2) ∧
      (findClient db2 "abc_Pixel_7").map Client.total_sessions
        = (findClient db1 "abc_Pixel_7").map Client.total_sessions :=
  C4_connect_idempotent "t1" "t2" emptyDB
    [("device_id", JVal.str "abc"), ("device_model", JVal.str "Pixel 7")]
    (JVal.str "abc") "Pixel 7" rfl rfl

/-- C7: the upsert on an existing client id rewrites exactly `device_model`,
`android_version`, `app_version`, `last_seen` and `last_location`, and
preserves `first_seen`, `device_id`, `total_sessions` (and the key). -/
theorem C7_update_frame (now : String) (db : DBState) (di : JObj)
    (d : JVal) (m : String) (c : Client)
    (hd : dictGet? di "device_id" = some d)
    (hm : asStr (dictGetD di "device_model" (JVal.str "")) = some m)
    (hc : findClient db (computeClientId d m) = some c) :
    ∃ db', register_or_update_client false now db di = (some (computeClientId d m), db') ∧
      findClient db' (computeClientId d m) = some (updateClientRow now di c) ∧
      (updateClientRow now di c).first_seen = c.first_seen ∧
      (updateClientRow now di c).device_id = c.device_id ∧
      (updateClientRow now di c).total_sessions = c.total_sessions ∧
      (updateClientRow now di c).client_id = c.client_id ∧
      (updateClientRow now di c).last_seen = now ∧
      (updateClientRow now di c).device_model = dictGetD di "device_model" (JVal.str "") ∧
      (updateClientRow now di c).android_version = dictGetD di "android_version" (JVal.str "") ∧
      (updateClientRow now di c).app_version = dictGetD di "app_version" (JVal.str "") ∧
      (updateClientRow now di c).last_location = dictGetD di "location" (JVal.str "N/A") := by
  refine ⟨_, register_update_eq now db di d m c hd hm hc, ?_,
    rfl, rfl, rfl, rfl, rfl, rfl, rfl, rfl, rfl⟩
  exact findClient_update_found now di db.clients _ c hc

/-- C7 witness: updating a concrete existing client keeps `first_seen`,
`device_id` and `total_sessions`. -/
theorem C7_update_frame_witness :
    ∃ db', register_or_update_client false "t9" wDB7
        [("device_id", JVal.str "abc"), ("device_model", JVal.str "Pixel 7"),
         ("app_version", JVal.str "2.0")]
      = (some "abc_Pixel_7", db') ∧
      findClient db' "abc_Pixel_7" = some (updateClientRow "t9"
        [("device_id", JVal.str "abc"), ("device_model", JVal.str "Pixel 7"),
         ("app_version", JVal.str "2.0")] wClient7) ∧
      (updateClientRow "t9"
        [("device_id", JVal.str "abc"), ("device_model", JVal.str "Pixel 7"),
         ("app_version", JVal.str "2.0")] wClient7).first_seen = wClient7.first_seen ∧
      (updateClientRow "t9"
        [("device_id", JVal.str "abc"), ("device_model", JVal.str "Pixel 7"),
         ("app_version", JVal.str "2.0")] wClient7).device_id = wClient7.device_id ∧
      (updateClientRow "t9"
        [("device_id", JVal.str "abc"), ("device_model", JVal.str "Pixel 7"),
         ("app_version", JVal.str "2.0")] wClient7).total_sessions = wClient7.total_sessions := by
  obtain ⟨db', h1, h2, h3, h4, h5, _⟩ := C7_update_frame "t9" wDB7
    [("device_id", JVal.str "abc"), ("device_model", JVal.str "Pixel 7"),
     ("app_version", JVal.str "2.0")]
    (JVal.str "abc") "Pixel 7" wClient7 rfl rfl rfl
  exact ⟨db', h1, h2, h3, h4, h5⟩

/-- C8: a successful connect computes and returns
`client_id = device_id + "_" + device_model` with spaces replaced by
underscores, answers 200, and echoes the supplied location. -/
theorem C8_connect_client_id (now : String) (db : DBState) (obj : JObj) (s m : String)
    (hd : dictGet? obj "device_id" = some (JVal.str s))
    (hm : asStr (dictGetD obj "device_model" (JVal.str "")) = some m) :
    ((handle_connect false now db (Except.ok obj)).1).status = 200 ∧
    dictGet? ((handle_connect false now db (Except.ok obj)).1).body "client_id"
      = some (JVal.str (s ++ "_" ++ sanitizeModel m)) ∧
    dictGet? ((handle_connect false now db (Except.ok obj)).1).body "location_recorded"
      = some (dictGetD obj "location" (JVal.str "N/A")) := by
  obtain ⟨db', c', hreg, _⟩ := register_success_found now db obj (JVal.str s) m hd hm
  simp only [handle_connect, hreg]
  simp [dictGet?, List.find?, computeClientId, pyStrOf]

/-- C8 witness: the spec scenario — device "abc123", model "Pixel 7",
location "Paris" give client id "abc123_Pixel_7", status 200 and
`location_recorded` "Paris". -/
theorem C8_connect_client_id_witness :
    ((handle_connect false "t0" emptyDB (Except.ok
        [("device_id", JVal.str "abc123"), ("device_model", JVal.str "Pixel 7"),
         ("location", JVal.str "Paris")])).1).status = 200 ∧
    dictGet? ((handle_connect false "t0" emptyDB (Except.ok
        [("device_id", JVal.str "abc123"), ("device_model", JVal.str "Pixel 7"),
         ("location", JVal.str "Paris")])).1).body "client_id"
      = some (JVal.str "abc123_Pixel_7") ∧
    dictGet? ((handle_connect false "t0" emptyDB (Except.ok
        [("device_id", JVal.str "abc123"), ("device_model", JVal.str "Pixel 7"),
         ("location", JVal.str "Paris")])).1).body "location_recorded"
      = some (JVal.str "Paris") :=
  C8_connect_client_id "t0" emptyDB
    [("device_id", JVal.str "abc123"), ("device_model", JVal.str "Pixel 7"),
     ("location", JVal.str "Paris")] "abc123" "Pixel 7" rfl rfl


/-- A successful store_ping_session call found all ten directly subscripted
fields and committed exactly the `commitSession` state. -/
theorem store_success_eq (f : SessionFaults) (db : DBState) (sd : SessionData)
    (h : (store_ping_session f db sd).1 = true) :
    ∃ sid cid host proto st et dur ps pr plp,
      dictGet? sd.fields "session_id" = some sid ∧
      dictGet? sd.fields "client_id" = some cid ∧
      dictGet? sd.fields "host" = some host ∧
      dictGet? sd.fields "protocol" = some proto ∧
      dictGet? sd.fields "start_time" = some st ∧
      dictGet? sd.fields "end_time" = some et ∧
      dictGet? sd.fields "duration_seconds" = some dur ∧
      dictGet? sd.fields "packets_sent" = some ps ∧
      dictGet? sd.fields "packets_received" = some pr ∧
      dictGet? sd.fields "packet_loss_percent" = some plp ∧
      store_ping_session f db sd
        = (true, commitSession sd db sid cid host proto st et dur ps pr plp) := by
  revert h
  unfold store_ping_session
  repeat' split
  all_goals intro h
  all_goals first
    | exact absurd h Bool.false_ne_true
    | (refine ⟨_, _, _, _, _, _, _, _, _, _,
        ?_, ?_, ?_, ?_, ?_, ?_, ?_, ?_, ?_, ?_, rfl⟩ <;> assumption)

/-- Mapping a client_id-preserving function over the table commutes with the
key lookup. -/
theorem findClient_map_pres_id (l : List Client) (h : Client → Client)
    (hid : ∀ c, (h c).client_id = c.client_id) (cid : String) :
    (l.map h).find? (fun c => c.client_id == cid)
      = (l.find? (fun c => c.client_id == cid)).map h :=
  find?_map_pres _ h (fun a => by rw [hid]) l

/-- A successful session store increments the referenced client's stored
`total_sessions` counter by exactly one. -/
theorem store_success_bump (f : SessionFaults) (db : DBState) (sd : SessionData)
    (cid : String) (c : Client)
    (hcid : dictGet? sd.fields "client_id" = some (JVal.str cid))
    (hfind : findClient db cid = some c)
    (hok : (store_ping_session f db sd).1 = true) :
    ∃ c', findClient (store_ping_session f db sd).2 cid = some c' ∧
      c'.total_sessions = c.total_sessions + 1 := by
  obtain ⟨sid, cid', host, proto, st, et, dur, ps, pr, plp,
    g1, g2, g3, g4, g5, g6, g7, g8, g9, g10, heq⟩ := store_success_eq f db sd hok
  rw [hcid] at g2
  injection g2 with g2
  subst g2
  rw [heq]
  have hfind' : db.clients.find? (fun cc => cc.client_id == cid) = some c := hfind
  have hbeq := @List.find?_some _ (fun cc => cc.client_id == cid) c db.clients hfind'
  have hcc : c.client_id = cid := by simpa using hbeq
  simp only [commitSession, findClient]
  rw [findClient_map_pres_id db.clients _
    (fun cc => by by_cases hz : (JVal.str cc.client_id == JVal.str cid) = true <;> simp [hz]) cid,
    hfind', Option.map_some']
  exact ⟨_, rfl, by simp [hcc]⟩


/-- Running a list of session uploads that all succeed adds their count to
the referenced client's stored counter. -/
theorem storeAll_bump (cid : String) :
    ∀ (L : List (SessionFaults × SessionData)) (db : DBState) (c : Client),
    findClient db cid = some c →
    (∀ p ∈ L, dictGet? p.2.fields "client_id" = some (JVal.str cid)) →
    (storeAll db L).1 = true →
    ∃ c', findClient (storeAll db L).2 cid = some c' ∧
      c'.total_sessions = c.total_sessions + L.length
  | [], db, c, hfind, _, _ => ⟨c, hfind, rfl⟩
  | (f, sd) :: rest, db, c, hfind, hall, hok => by
    have hok' : (store_ping_session f db sd).1 = true ∧
        (storeAll (store_ping_session f db sd).2 rest).1 = true := by
      simpa [storeAll, Bool.and_eq_true] using hok
    obtain ⟨c1, hfind1, hts1⟩ := store_success_bump f db sd cid c
      (hall (f, sd) (List.mem_cons_self _ _)) hfind hok'.1
    obtain ⟨c', hfind', hts'⟩ := storeAll_bump cid rest (store_ping_session f db sd).2 c1
      hfind1 (fun p hp => hall p (List.mem_cons_of_mem _ hp)) hok'.2
    refine ⟨c', by simpa [storeAll] using hfind', ?_⟩
    rw [hts', hts1, List.length_cons]
    omega

/-- C5: starting from a client whose stored `total_sessions` is 0, a run of
N successful upload-session stores that all reference that client's id
leaves the stored counter at exactly N — whatever the join-derived
`actual_sessions` value `get_client_stats` computes from the sessions
table. -/
theorem C5_total_sessions_counter (db : DBState) (cid : String) (c : Client)
    (L : List (SessionFaults × SessionData))
    (hfind : findClient db cid = some c)
    (h0 : c.total_sessions = 0)
    (hrefs : ∀ p ∈ L, dictGet? p.2.fields "client_id" = some (JVal.str cid))
    (hok : (storeAll db L).1 = true) :
    ∃ stats, get_client_stats (storeAll db L).2 cid = some stats ∧
      stats.client.total_sessions = L.length := by
  obtain ⟨c', hfind', hts⟩ := storeAll_bump cid L db c hfind hrefs hok
  refine ⟨{ client := c', actual_sessions := ((storeAll db L).2.ping_sessions.filter (fun s =>
      s.client_id == JVal.str c'.client_id && !(s.session_id == JVal.null))).length }, ?_, ?_⟩
  · simp [get_client_stats, hfind']
  · simp [hts, h0]


/-- C5 witness: two successful concrete uploads leave the stored counter at 2. -/
theorem C5_total_sessions_counter_witness :
    ∃ stats, get_client_stats
        (storeAll wDB0 [(noFaults, wSession "s1"), (noFaults, wSession "s2")]).2 "c1"
      = some stats ∧ stats.client.total_sessions = 2 :=
  C5_total_sessions_counter wDB0 "c1" wClient0
    [(noFaults, wSession "s1"), (noFaults, wSession "s2")]
    rfl rfl (by decide) (by decide)

/-- C10: the upload-session validation tests only key presence: a body in
which all eight required keys are present passes validation whatever the
values (JSON nulls included), and a successful store writes exactly those
values — nulls unchanged — into the new ping_sessions row. -/
theorem C10_validation_presence_only (f : SessionFaults) (db : DBState)
    (sd : SessionData) (vs vc vh vp vst vet vps vpr : JVal)
    (h1 : dictGet? sd.fields "session_id" = some vs)
    (h2 : dictGet? sd.fields "client_id" = some vc)
    (h3 : dictGet? sd.fields "host" = some vh)
    (h4 : dictGet? sd.fields "protocol" = some vp)
    (h5 : dictGet? sd.fields "start_time" = some vst)
    (h6 : dictGet? sd.fields "end_time" = some vet)
    (h7 : dictGet? sd.fields "packets_sent" = some vps)
    (h8 : dictGet? sd.fields "packets_received" = some vpr) :
    firstMissing sd.fields = none ∧
    ((store_ping_session f db sd).1 = true →
      ∃ row, (store_ping_session f db sd).2.ping_sessions = db.ping_sessions ++ [row] ∧
        row.session_id = vs ∧ row.client_id = vc ∧ row.host = vh ∧ row.protocol = vp ∧
        row.start_time = vst ∧ row.end_time = vet ∧
        row.packets_sent = vps ∧ row.packets_received = vpr) := by
  have hc1 := containsKey_of_dictGet? _ _ _ h1
  have hc2 := containsKey_of_dictGet? _ _ _ h2
  have hc3 := containsKey_of_dictGet? _ _ _ h3
  have hc4 := containsKey_of_dictGet? _ _ _ h4
  have hc5 := containsKey_of_dictGet? _ _ _ h5
  have hc6 := containsKey_of_dictGet? _ _ _ h6
  have hc7 := containsKey_of_dictGet? _ _ _ h7
  have hc8 := containsKey_of_dictGet? _ _ _ h8
  constructor
  · unfold firstMissing required_fields
    rw [List.find?_eq_none]
    intro x hx
    simp only [List.mem_cons, List.not_mem_nil, or_false] at hx
    rcases hx with rfl | rfl | rfl | rfl | rfl | rfl | rfl | rfl
    all_goals simp [hc1, hc2, hc3, hc4, hc5, hc6, hc7, hc8]
  · intro hok
    obtain ⟨sid, cid, host, proto, st, et, dur, ps, pr, plp,
      g1, g2, g3, g4, g5, g6, g7, g8, g9, g10, heq⟩ := store_success_eq f db sd hok
    rw [h1] at g1; injection g1 with e1; subst e1
    rw [h2] at g2; injection g2 with e2; subst e2
    rw [h3] at g3; injection g3 with e3; subst e3
    rw [h4] at g4; injection g4 with e4; subst e4
    rw [h5] at g5; injection g5 with e5; subst e5
    rw [h6] at g6; injection g6 with e6; subst e6
    rw [h7] at g8; injection g8 with e8; subst e8
    rw [h8] at g9; injection g9 with e9; subst e9
    rw [heq]
    exact ⟨mkSessionRow sd vs vc vh vp vst vet dur vps vpr plp,
      by simp [commitSession], rfl, rfl, rfl, rfl, rfl, rfl, rfl, rfl⟩

/-- C10 witness: the concrete null-carrying body passes validation and its
nulls are stored unchanged. -/
theorem C10_validation_presence_only_witness :
    firstMissing wNullSession.fields = none ∧
    (∃ row, (store_ping_session noFaults emptyDB wNullSession).2.ping_sessions
        = emptyDB.ping_sessions ++ [row] ∧
      row.session_id = JVal.null ∧ row.client_id = JVal.null ∧
      row.host = JVal.str "h" ∧ row.protocol = JVal.str "udp" ∧
      row.start_time = JVal.null ∧ row.end_time = JVal.null ∧
      row.packets_sent = JVal.null ∧ row.packets_received = JVal.null) :=
  ⟨(C10_validation_presence_only noFaults emptyDB wNullSession
      JVal.null JVal.null (JVal.str "h") (JVal.str "udp") JVal.null JVal.null
      JVal.null JVal.null rfl rfl rfl rfl rfl rfl rfl rfl).1,
   (C10_validation_presence_only noFaults emptyDB wNullSession
      JVal.null JVal.null (JVal.str "h") (JVal.str "udp") JVal.null JVal.null
      JVal.null JVal.null rfl rfl rfl rfl rfl rfl rfl rfl).2 (by decide)⟩


/-- C6: store_ping_session is atomic on failure: a call that returns `False`
leaves the database exactly as it was (no partially stored session), and a
fault at any statement (connection, session insert, client update, commit)
makes the call return `False`. -/
theorem C6_store_session_atomic (f : SessionFaults) (db : DBState) (sd : SessionData) :
    ((store_ping_session f db sd).1 = false → (store_ping_session f db sd).2 = db) ∧
    ((f.connect = true ∨ f.insertSession = true ∨ f.updateClient = true ∨ f.commit = true) →
      (store_ping_session f db sd).1 = false) := by
  constructor
  · unfold store_ping_session
    repeat' split
    all_goals intro h
    all_goals simp_all
  · intro hf
    unfold store_ping_session
    repeat' split
    all_goals simp_all

/-- C6 witness: a concrete failing call (session insert fault) returns
`False` and leaves the concrete database unchanged. -/
theorem C6_store_session_atomic_witness :
    (store_ping_session ⟨false, true, false, [], false⟩ emptyDB ⟨[], none, none⟩).2 = emptyDB :=
  (C6_store_session_atomic ⟨false, true, false, [], false⟩ emptyDB ⟨[], none, none⟩).1
    ((C6_store_session_atomic ⟨false, true, false, [], false⟩ emptyDB ⟨[], none, none⟩).2
      (Or.inr (Or.inl rfl)))

/-- C1: the code diverges from the claim: with a SQLite fault,
store_heartbeat returns `False`, yet handle_heartbeat (which discards that
boolean at server.py line 520) still answers HTTP 200, not 500. -/
theorem C1_heartbeat_ignores_store_failure :
    (store_heartbeat true "t0" emptyDB []).1 = false ∧
    ((handle_heartbeat true "t0" emptyDB (Except.ok [])).1).status = 200 := by
  constructor <;> rfl

/-- C2 counterexample: a well-formed JSON body lacking `device_id` (here the
empty object) is answered with HTTP 500 "Failed to register client", not
HTTP 400. -/
theorem C2_connect_missing_field_counterexample :
    ((handle_connect false "t0" emptyDB (Except.ok [])).1).status = 500 ∧
    ¬ ((handle_connect false "t0" emptyDB (Except.ok [])).1).status = 400 := by
  constructor
  · rfl
  · decide

/-- C2 (amended): a POST /api/connect body lacking `device_id` makes
register_or_update_client swallow the `KeyError` and return `None`, so the
handler answers HTTP 500 "Failed to register client" (the database is
unchanged); HTTP 400 arises only from a malformed JSON body. -/
theorem C2_connect_missing_device_id (fault : Bool) (now : String) (db : DBState) (obj : JObj)
    (h : dictGet? obj "device_id" = none) :
    handle_connect fault now db (Except.ok obj)
      = (jsonError 500 "Failed to register client" now, db) := by
  cases fault <;> simp [handle_connect, register_or_update_client, h]

/-- C2 witness: the amended statement at the concrete empty body. -/
theorem C2_connect_missing_device_id_witness :
    handle_connect false "t0" emptyDB (Except.ok [])
      = (jsonError 500 "Failed to register client" "t0", emptyDB) :=
  C2_connect_missing_device_id false "t0" emptyDB [] rfl

/-- C3: an upload-session body missing at least one of the eight required
fields is rejected with HTTP 400 naming the first missing field in listed
order, and the database (in particular `ping_sessions`) is unchanged. -/
theorem C3_upload_missing_field (f : SessionFaults) (now : String) (db : DBState)
    (sd : SessionData) (field : String)
    (h : firstMissing sd.fields = some field) :
    handle_upload_session f now db (Except.ok sd)
      = (jsonError 400 ("Missing required field: " ++ field) now, db) := by
  simp only [handle_upload_session]
  rw [h]

/-- C3 witness: a body carrying only `session_id` is rejected naming
`client_id`, with the database untouched. -/
theorem C3_upload_missing_field_witness :
    handle_upload_session noFaults "t0" emptyDB
        (Except.ok ⟨[("session_id", JVal.str "s")], none, none⟩)
      = (jsonError 400 "Missing required field: client_id" "t0", emptyDB) :=
  C3_upload_missing_field noFaults "t0" emptyDB
    ⟨[("session_id", JVal.str "s")], none, none⟩ "client_id" rfl

/-- Connect without a `location` key records and echoes the "N/A" sentinel. -/
theorem connect_location_default (now : String) (db : DBState) (obj : JObj)
    (d : JVal) (m : String)
    (hd : dictGet? obj "device_id" = some d)
    (hm : asStr (dictGetD obj "device_model" (JVal.str "")) = some m)
    (hloc : dictGet? obj "location" = none) :
    dictGet? ((handle_connect false now db (Except.ok obj)).1).body "location_recorded"
      = some (JVal.str "N/A") ∧
    ∃ c, findClient ((handle_connect false now db (Except.ok obj)).2) (computeClientId d m)
        = some c ∧ c.last_location = JVal.str "N/A" := by
  have hgetd : dictGetD obj "location" (JVal.str "N/A") = JVal.str "N/A" := by
    simp [dictGetD, hloc]
  cases hc : findClient db (computeClientId d m) with
  | some c =>
    have hreg := register_update_eq now db obj d m c hd hm hc
    constructor
    · simp only [handle_connect, hreg]
      simp [dictGet?, List.find?, hgetd]
    · refine ⟨updateClientRow now obj c, ?_, ?_⟩
      · simp only [handle_connect, hreg]
        exact findClient_update_found now obj db.clients _ c hc
      · simp [updateClientRow, hgetd]
  | none =>
    have hreg := register_insert_eq now db obj d m hd hm hc
    constructor
    · simp only [handle_connect, hreg]
      simp [dictGet?, List.find?, hgetd]
    · refine ⟨newClientRow now obj d (computeClientId d m), ?_, ?_⟩
      · simp only [handle_connect, hreg]
        exact findClient_insert_found now obj db.clients d _ hc
      · simp [newClientRow, hgetd]

/-- Heartbeat without a `location` key logs and echoes the "N/A" sentinel. -/
theorem heartbeat_location_default (now : String) (db : DBState) (hb : JObj)
    (hloc : dictGet? hb "location" = none) :
    dictGet? ((handle_heartbeat false now db (Except.ok hb)).1).body "location_recorded"
      = some (JVal.str "N/A") ∧
    ∃ row, ((handle_heartbeat false now db (Except.ok hb)).2).heartbeats
        = db.heartbeats ++ [row] ∧ row.location = JVal.str "N/A" := by
  have hgetd : dictGetD hb "location" (JVal.str "N/A") = JVal.str "N/A" := by
    simp [dictGetD, hloc]
  constructor
  · simp [handle_heartbeat, dictGet?, List.find?, hgetd]
  · refine ⟨{ client_id := dictGetD hb "client_id" (JVal.str ""),
              device_id := dictGetD hb "device_id" (JVal.str ""),
              app_status := dictGetD hb "app_status" (JVal.str "unknown"),
              location := JVal.str "N/A", timestamp := now }, ?_, rfl⟩
    simp only [handle_heartbeat, store_heartbeat, hgetd]
    by_cases ht : pyTruthy (dictGetD hb "client_id" JVal.null) = true
    · simp [ht]
    · simp [ht]

/-- Upload-session without `start_location`/`end_location` keys that answers
200 stored and echoed the "N/A" sentinels. -/
theorem upload_location_default (f : SessionFaults) (now : String) (db : DBState)
    (sd : SessionData)
    (hstart : dictGet? sd.fields "start_location" = none)
    (hend : dictGet? sd.fields "end_location" = none)
    (h200 : ((handle_upload_session f now db (Except.ok sd)).1).status = 200) :
    dictGet? ((handle_upload_session f now db (Except.ok sd)).1).body "start_location"
      = some (JVal.str "N/A") ∧
    dictGet? ((handle_upload_session f now db (Except.ok sd)).1).body "end_location"
      = some (JVal.str "N/A") ∧
    ∃ row, ((handle_upload_session f now db (Except.ok sd)).2).ping_sessions
        = db.ping_sessions ++ [row] ∧
      row.start_location = JVal.str "N/A" ∧ row.end_location = JVal.str "N/A" := by
  have hgs : dictGetD sd.fields "start_location" (JVal.str "N/A") = JVal.str "N/A" := by
    simp [dictGetD, hstart]
  have hge : dictGetD sd.fields "end_location" (JVal.str "N/A") = JVal.str "N/A" := by
    simp [dictGetD, hend]
  cases hfm : firstMissing sd.fields with
  | some field =>
    exfalso
    simp [handle_upload_session, hfm, jsonError] at h200
  | none =>
    cases hst : store_ping_session f db sd with
    | mk ok db2 =>
      cases ok with
      | false =>
        exfalso
        simp [handle_upload_session, hfm, hst, jsonError] at h200
      | true =>
        obtain ⟨sid, cid, host, proto, st, et, dur, ps, pr, plp,
          g1, g2, g3, g4, g5, g6, g7, g8, g9, g10, heq⟩ :=
          store_success_eq f db sd (by rw [hst])
        rw [hst] at heq
        injection heq with _ heq2
        refine ⟨?_, ?_, ?_⟩
        · simp only [handle_upload_session, hfm, hst]
          simp [dictGet?, List.find?, hgs]
        · simp only [handle_upload_session, hfm, hst]
          simp [dictGet?, List.find?, hge]
        · simp only [handle_upload_session, hfm, hst]
          refine ⟨mkSessionRow sd sid cid host proto st et dur ps pr plp, ?_,
            by simp [mkSessionRow, hgs], by simp [mkSessionRow, hge]⟩
          rw [heq2]
          simp [commitSession]

/-- C9: every connect, heartbeat or upload-session request that omits its
location field (`location`, `start_location`, `end_location`) stores the
sentinel string "N/A" in the database and echoes "N/A" in the response,
never null or the empty string. -/
theorem C9_location_sentinel :
    (∀ (now : String) (db : DBState) (obj : JObj) (d : JVal) (m : String),
      dictGet? obj "device_id" = some d →
      asStr (dictGetD obj "device_model" (JVal.str "")) = some m →
      dictGet? obj "location" = none →
      dictGet? ((handle_connect false now db (Except.ok obj)).1).body "location_recorded"
        = some (JVal.str "N/A") ∧
      ∃ c, findClient ((handle_connect false now db (Except.ok obj)).2) (computeClientId d m)
          = some c ∧ c.last_location = JVal.str "N/A") ∧
    (∀ (now : String) (db : DBState) (hb : JObj),
      dictGet? hb "location" = none →
      dictGet? ((handle_heartbeat false now db (Except.ok hb)).1).body "location_recorded"
        = some (JVal.str "N/A") ∧
      ∃ row, ((handle_heartbeat false now db (Except.ok hb)).2).heartbeats
          = db.heartbeats ++ [row] ∧ row.location = JVal.str "N/A") ∧
    (∀ (f : SessionFaults) (now : String) (db : DBState) (sd : SessionData),
      dictGet? sd.fields "start_location" = none →
      dictGet? sd.fields "end_location" = none →
      ((handle_upload_session f now db (Except.ok sd)).1).status = 200 →
      dictGet? ((handle_upload_session f now db (Except.ok sd)).1).body "start_location"
        = some (JVal.str "N/A") ∧
      dictGet? ((handle_upload_session f now db (Except.ok sd)).1).body "end_location"
        = some (JVal.str "N/A") ∧
      ∃ row, ((handle_upload_session f now db (Except.ok sd)).2).ping_sessions
          = db.ping_sessions ++ [row] ∧
        row.start_location = JVal.str "N/A" ∧ row.end_location = JVal.str "N/A") :=
  ⟨fun now db obj d m hd hm hloc => connect_location_default now db obj d m hd hm hloc,
   fun now db hb hloc => heartbeat_location_default now db hb hloc,
   fun f now db sd hs he h200 => upload_location_default f now db sd hs he h200⟩

/-- C9 witness: a location-less connect, an empty-body heartbeat and a
location-less upload, all at concrete inputs, store and echo "N/A". -/
theorem C9_location_sentinel_witness :
    (dictGet? ((handle_connect false "t0" emptyDB (Except.ok
        [("device_id", JVal.str "d1")])).1).body "location_recorded"
      = some (JVal.str "N/A") ∧
     ∃ c, findClient ((handle_connect false "t0" emptyDB (Except.ok
        [("device_id", JVal.str "d1")])).2) (computeClientId (JVal.str "d1") "")
        = some c ∧ c.last_location = JVal.str "N/A") ∧
    (dictGet? ((handle_heartbeat false "t0" emptyDB (Except.ok [])).1).body "location_recorded"
      = some (JVal.str "N/A") ∧
     ∃ row, ((handle_heartbeat false "t0" emptyDB (Except.ok [])).2).heartbeats
        = emptyDB.heartbeats ++ [row] ∧ row.location = JVal.str "N/A") ∧
    (dictGet? ((handle_upload_session noFaults "t0" emptyDB
        (Except.ok (wSession "s9"))).1).body "start_location" = some (JVal.str "N/A") ∧
     dictGet? ((handle_upload_session noFaults "t0" emptyDB
        (Except.ok (wSession "s9"))).1).body "end_location" = some (JVal.str "N/A") ∧
     ∃ row, ((handle_upload_session noFaults "t0" emptyDB
          (Except.ok (wSession "s9"))).2).ping_sessions
        = emptyDB.ping_sessions ++ [row] ∧
       row.start_location = JVal.str "N/A" ∧ row.end_location = JVal.str "N/A") :=
  ⟨C9_location_sentinel.1 "t0" emptyDB [("device_id", JVal.str "d1")]
      (JVal.str "d1") "" rfl rfl rfl,
   C9_location_sentinel.2.1 "t0" emptyDB [] rfl,
   C9_location_sentinel.2.2 noFaults "t0" emptyDB (wSession "s9") rfl rfl (by decide)⟩

end PingApp
